import Mathlib

set_option maxRecDepth 4000

/-!
Shallow embedding of the anti-location-tracker repository
(`anti_gps.py`, `live_locations.py`, `live_locations_advanced.py`,
`shareable_links.py`) and proofs about it.

Python floats are modelled as exact rationals (`ℚ`) where the code only does
field arithmetic and comparisons, and as reals (`ℝ`) where it calls
transcendental functions (the haversine distance).  Python's random draws are
passed in explicitly as arguments, and `datetime.now().isoformat()` is passed
in as a timestamp string, so every function is a pure function of its inputs.
-/

namespace AntiGps

/-- Signal record built in `AntiGPSSystem.detect_gps_signals`
(`src/anti_gps.py`, lines 55-62): a dict with keys `frequency`,
`frequency_mhz`, `strength`, `quality`, `timestamp`, `threat_level`. -/
structure Signal where
  frequency : String
  frequency_mhz : ℚ
  strength : ℚ
  quality : ℚ
  timestamp : String
  threat_level : String
deriving DecidableEq

/-- Severity classification of `AntiGPSSystem.analyze_threat_level`
(`src/anti_gps.py`, lines 77-84): the threshold bands applied to the already
computed `total_strength` and `avg_quality`. -/
def classify_severity (total_strength avg_quality : ℚ) : String :=
  if total_strength > 2.0 ∧ avg_quality > 0.8 then "critical"
  else if total_strength > 1.5 ∧ avg_quality > 0.7 then "high"
  else if total_strength > 1.0 then "medium"
  else "low"

/-- `AntiGPSSystem.analyze_threat_level` (`src/anti_gps.py`, lines 69-84):
`"none"` on the empty list, otherwise the threshold bands applied to
`total_strength = sum(s["strength"])` and
`avg_quality = sum(s["quality"]) / len(signals)`. -/
def analyze_threat_level (signals : List Signal) : String :=
  if signals = [] then "none"
  else
    let total_strength := (signals.map Signal.strength).sum
    let avg_quality := (signals.map Signal.quality).sum / (signals.length : ℚ)
    classify_severity total_strength avg_quality

/-- Reference classifier, written from the specification's words: returns
`none` if empty; otherwise computes `total_strength = Σ strength` and
`avg_quality = mean(quality)`, then returns `critical` if
`total_strength > 2.0` and `avg_quality > 0.8`, else `high` if
`total_strength > 1.5` and `avg_quality > 0.7`, else `medium` if
`total_strength > 1.0`, else `low`, checks evaluated in that priority
order. -/
def classifySpec (signals : List Signal) : String :=
  match signals with
  | [] => "none"
  | _ =>
    let total_strength := (signals.map Signal.strength).sum
    let avg_quality := (signals.map Signal.quality).sum / (signals.length : ℚ)
    if total_strength > 2.0 ∧ avg_quality > 0.8 then "critical"
    else if total_strength > 1.5 ∧ avg_quality > 0.7 then "high"
    else if total_strength > 1.0 then "medium"
    else "low"

/-- Rank of a severity string under the order
none < low < medium < high < critical; unknown strings rank with none. -/
def severityRank : String → ℕ
  | "critical" => 4
  | "high" => 3
  | "medium" => 2
  | "low" => 1
  | _ => 0

/-- Concrete signal used to instantiate universally quantified theorems. -/
def sampleSignal (st q : ℚ) : Signal :=
  { frequency := "L1", frequency_mhz := 1575.42, strength := st, quality := q,
    timestamp := "t0", threat_level := "medium" }

end AntiGps

namespace LiveLocations

/-- Buffer update performed by one iteration of
`LiveLocationTracker.tracking_loop` (`src/live_locations.py`, lines 111-115)
and identically by `AdvancedLocationTracker.tracking_loop`
(`src/live_locations_advanced.py`, lines 229-232): append the new record,
then, if the buffer holds more than 100 records, keep only the last 100
(`self.location_history = self.location_history[-100:]`).  The loop body never
inspects the stored records, so the element type is kept abstract. -/
def tracking_append {α : Type} (location_history : List α) (location : α) :
    List α :=
  let h := location_history ++ [location]
  if h.length > 100 then h.drop (h.length - 100) else h

/-- Buffer contents after a sequence of tracking-loop iterations, one
`tracking_append` per sampled record, in tick order. -/
def tracking_run {α : Type} (location_history : List α) (locs : List α) :
    List α :=
  locs.foldl tracking_append location_history

/-- Location record produced by `LiveLocationTracker.get_current_location`
(`src/live_locations.py`, lines 50-60); the coordinates and numeric telemetry
are reals, the rest strings. -/
structure LocationSample where
  name : String
  lat : ℝ
  lon : ℝ
  country : String
  timestamp : String
  accuracy : ℝ
  speed : ℝ
  heading : ℝ
  altitude : ℝ

/-- Python `math.radians`: degrees to radians. -/
noncomputable def radians (x : ℝ) : ℝ := x * Real.pi / 180

/-- Python `math.atan2 y x`, modelled as the argument of the complex number
`x + y*I` (the angle in (-π, π] of the point (x, y)). -/
noncomputable def atan2 (y x : ℝ) : ℝ := Complex.arg ⟨x, y⟩

/-- `LiveLocationTracker.calculate_distance` (`src/live_locations.py`, lines
64-76): the haversine great-circle distance in kilometres between two
(lat, lon) pairs given in degrees, on a sphere of Earth radius `R = 6371`
km, in the `2·R·atan2(√a, √(1-a))` form used by the source. -/
noncomputable def calculate_distance (lat1 lon1 lat2 lon2 : ℝ) : ℝ :=
  let R : ℝ := 6371
  let lat1 := radians lat1
  let lon1 := radians lon1
  let lat2 := radians lat2
  let lon2 := radians lon2
  let dlat := lat2 - lat1
  let dlon := lon2 - lon1
  let a := Real.sin (dlat / 2) ^ 2 +
    Real.cos lat1 * Real.cos lat2 * Real.sin (dlon / 2) ^ 2
  let c := 2 * atan2 (Real.sqrt a) (Real.sqrt (1 - a))
  R * c

/-- Accumulation loop of `LiveLocationTracker.get_distance_traveled`
(`src/live_locations.py`, lines 154-162): for `i` in `1..len-1`, add the
distance between entries `i-1` and `i`. -/
noncomputable def distance_loop : List LocationSample → ℝ
  | prev :: curr :: rest =>
      calculate_distance prev.lat prev.lon curr.lat curr.lon +
        distance_loop (curr :: rest)
  | _ => 0

/-- `LiveLocationTracker.get_distance_traveled` (`src/live_locations.py`,
lines 149-164): 0 when the history holds fewer than 2 samples, otherwise the
sum of consecutive-pair distances. -/
noncomputable def get_distance_traveled
    (location_history : List LocationSample) : ℝ :=
  if location_history.length < 2 then 0 else distance_loop location_history

/-- Reference definition from the specification: the sum, over consecutive
stored samples in chronological order, of the haversine great-circle distance
between their (lat, lon) coordinates. -/
noncomputable def total_distance_spec (history : List LocationSample) : ℝ :=
  ((history.zip history.tail).map fun p =>
    calculate_distance p.1.lat p.1.lon p.2.lat p.2.lon).sum

end LiveLocations

namespace AntiGps

/-- Mutable state fields set by `AntiGPSSystem.__init__` (`src/anti_gps.py`,
lines 16-23).  The constants `log_file`, `gps_frequencies` and
`protection_methods` never change after construction and are modelled as
standalone definitions. -/
structure AntiGPSSystem where
  is_active : Bool
  detection_mode : String
  protection_level : String
  gps_signals_detected : List Signal
  jamming_active : Bool
deriving DecidableEq

/-- State produced by `AntiGPSSystem.__init__` (`src/anti_gps.py`, lines
16-23). -/
def initSystem : AntiGPSSystem :=
  { is_active := false, detection_mode := "passive",
    protection_level := "medium", gps_signals_detected := [],
    jamming_active := false }

/-- `self.gps_frequencies` (`src/anti_gps.py`, lines 26-30). -/
def gps_frequencies : List (String × ℚ) :=
  [("L1", 1575.42), ("L2", 1227.60), ("L5", 1176.45)]

/-- `self.protection_methods` (`src/anti_gps.py`, lines 33-38). -/
def protection_methods : List (String × List String) :=
  [("low", ["signal_detection", "location_spoofing"]),
   ("medium", ["signal_detection", "location_spoofing", "signal_jamming"]),
   ("high", ["signal_detection", "location_spoofing", "signal_jamming",
     "frequency_hopping"]),
   ("maximum", ["signal_detection", "location_spoofing", "signal_jamming",
     "frequency_hopping", "encryption"])]

/-- Signals computed by one scan of `AntiGPSSystem.detect_gps_signals`
(`src/anti_gps.py`, lines 48-64): one uniform draw of (strength, quality)
per frequency band, the band reported when `signal_strength > 0.3`, with a
per-signal `threat_level` of high above strength 0.7 and medium otherwise.
The random draws are supplied positionally alongside `gps_frequencies` and
the scan time as `ts`; the computation reads nothing else. -/
def detected_signals (draws : List (ℚ × ℚ)) (ts : String) : List Signal :=
  (gps_frequencies.zip draws).filterMap fun fd =>
    if fd.2.1 > 0.3 then
      some { frequency := fd.1.1, frequency_mhz := fd.1.2,
             strength := fd.2.1, quality := fd.2.2, timestamp := ts,
             threat_level := if fd.2.1 > 0.7 then "high" else "medium" }
    else none

/-- `AntiGPSSystem.detect_gps_signals` (`src/anti_gps.py`, lines 43-67):
returns the detected signals and extends `self.gps_signals_detected` with
them (line 66). -/
def detect_gps_signals (sys : AntiGPSSystem) (draws : List (ℚ × ℚ))
    (ts : String) : List Signal × AntiGPSSystem :=
  let signals := detected_signals draws ts
  (signals,
    { sys with gps_signals_detected := sys.gps_signals_detected ++ signals })

/-- State after a sequence of `detect_gps_signals` calls, one
(draws, timestamp) pair per call, in order. -/
def run_detections (sys : AntiGPSSystem)
    (ticks : List (List (ℚ × ℚ) × String)) : AntiGPSSystem :=
  ticks.foldl (fun s t => (detect_gps_signals s t.1 t.2).2) sys

/-- Jamming-result dict built by `AntiGPSSystem.signal_jamming`
(`src/anti_gps.py`, lines 125-130). -/
structure JammingResult where
  frequency : String
  jamming_power : ℚ
  success : Bool
  timestamp : String
deriving DecidableEq

/-- Return value of `AntiGPSSystem.signal_jamming`: Python returns either the
bare boolean `False` (line 115, empty input) or a list of jamming-result
dicts (line 137). -/
inductive JammingReturn where
  | asBool (b : Bool)
  | records (rs : List JammingResult)
deriving DecidableEq

/-- Whether a `signal_jamming` return value is a list of records rather than
a boolean. -/
def JammingReturn.isRecordList : JammingReturn → Bool
  | .asBool _ => false
  | .records _ => true

/-- `AntiGPSSystem.signal_jamming` (`src/anti_gps.py`, lines 112-137):
`False` on the empty signal list; otherwise one record per signal with a
drawn `jamming_power` (supplied positionally by `powers`) and
`success = jamming_power > 0.7`, with `self.jamming_active` set to whether
any jamming succeeded. -/
def signal_jamming (sys : AntiGPSSystem) (signals : List Signal)
    (powers : ℕ → ℚ) (ts : String) : JammingReturn × AntiGPSSystem :=
  if signals = [] then (.asBool false, sys)
  else
    let jamming_results := signals.enum.map fun is =>
      ({ frequency := is.2.frequency, jamming_power := powers is.1,
         success := decide (powers is.1 > 0.7), timestamp := ts }
        : JammingResult)
    (.records jamming_results,
      { sys with jamming_active := jamming_results.any JammingResult.success })

/-- Countermeasure actions that one iteration of
`AntiGPSSystem.continuous_monitoring` applies (`src/anti_gps.py`, lines
184-196): the methods of `apply_protection` (spoofing, jamming, hopping,
encryption; lines 204-215) when the analyzed threat level is high or
critical, the methods of `apply_basic_protection` (spoofing, jamming; lines
217-226) when it is medium, and nothing otherwise.  The configured
`protection_level` is part of the state passed in, but the dispatch never
reads it. -/
def monitoring_tick_actions (sys : AntiGPSSystem) (signals : List Signal) :
    List String :=
  if signals = [] then []
  else
    let threat_level := analyze_threat_level signals
    if threat_level = "high" ∨ threat_level = "critical" then
      ["location_spoofing", "signal_jamming", "frequency_hopping",
        "encryption"]
    else if threat_level = "medium" then
      ["location_spoofing", "signal_jamming"]
    else []

/-- `AntiGPSSystem.set_protection_level` (`src/anti_gps.py`, lines 241-247):
stores the level when it is a key of `protection_methods`, otherwise leaves
the state unchanged; the second component is the printed user-visible
message. -/
def set_protection_level (sys : AntiGPSSystem) (level : String) :
    AntiGPSSystem × String :=
  if (protection_methods.lookup level).isSome then
    ({ sys with protection_level := level },
      "🛡️ Protection level set to: " ++ level.toUpper)
  else
    (sys, "❌ Invalid protection level. Use: low, medium, high, maximum")

/-- `valid_modes` of `set_detection_mode` (`src/anti_gps.py`, line 251). -/
def valid_modes : List String := ["passive", "active", "aggressive"]

/-- `AntiGPSSystem.set_detection_mode` (`src/anti_gps.py`, lines 249-256):
stores the mode when it is one of `valid_modes`, otherwise leaves the state
unchanged; the second component is the printed user-visible message. -/
def set_detection_mode (sys : AntiGPSSystem) (mode : String) :
    AntiGPSSystem × String :=
  if valid_modes.contains mode then
    ({ sys with detection_mode := mode },
      "🔍 Detection mode set to: " ++ mode.toUpper)
  else
    (sys, "❌ Invalid detection mode. Use: passive, active, aggressive")

/-- Status dict of `AntiGPSSystem.get_status` (`src/anti_gps.py`, lines
258-268). -/
structure Status where
  active : Bool
  detection_mode : String
  protection_level : String
  signals_detected : ℕ
  jamming_active : Bool
  threat_level : String
deriving DecidableEq

/-- `AntiGPSSystem.get_status` (`src/anti_gps.py`, lines 258-268): the
threat level is recomputed from the whole accumulated
`gps_signals_detected` list. -/
def get_status (sys : AntiGPSSystem) : Status :=
  { active := sys.is_active, detection_mode := sys.detection_mode,
    protection_level := sys.protection_level,
    signals_detected := sys.gps_signals_detected.length,
    jamming_active := sys.jamming_active,
    threat_level := analyze_threat_level sys.gps_signals_detected }

end AntiGps

namespace ShareLinks

/-- Location dict consumed by `ShareableLinksGenerator.generate_links`
(`src/shareable_links.py`, lines 24-30): `lat`, `lon`, `name` and `country`
are required keys; `weather`, `temperature`, `traffic` and `speed` are
optional and read with `.get` defaults (Unknown, 0, Unknown, 0). -/
structure Location where
  name : String
  lat : ℚ
  lon : ℚ
  country : String
  weather : Option String := none
  temperature : Option ℚ := none
  traffic : Option String := none
  speed : Option ℚ := none
deriving DecidableEq

/-- Digits of the fractional part of a non-negative rational below 1, most
significant first, `n` digits long. -/
def fracDigits : ℕ → ℚ → List ℕ
  | 0, _ => []
  | n + 1, q =>
    (⌊q * 10⌋).toNat :: fracDigits n (q * 10 - (⌊q * 10⌋ : ℚ))

/-- Digit list with its trailing zeros removed. -/
def stripTrailingZeroDigits (l : List ℕ) : List ℕ :=
  (l.reverse.dropWhile (· = 0)).reverse

/-- Python `str(float)` as invoked by the plain f-string substitutions
(`{lat}`, `{lon}`) of `generate_links`, modelled for the finite decimal
literals appearing in this repository: CPython prints the shortest
round-trip representation of such a float, which is its decimal expansion
with trailing zeros removed, keeping at least one fractional digit (so
`-74.0060` prints as `-74.006` and a whole number as e.g. `40.0`).
Seventeen fractional digits are examined, the maximum a shortest round-trip
float representation can need. -/
def pyFloatStr (q : ℚ) : String :=
  let sgn := if q < 0 then "-" else ""
  let a := |q|
  let ip := (⌊a⌋).toNat
  let ds := stripTrailingZeroDigits (fracDigits 17 (a - (⌊a⌋ : ℚ)))
  let ds := if ds = [] then [0] else ds
  sgn ++ toString ip ++ "." ++ String.join (ds.map toString)

/-- Decimal string left-padded with zeros to length `n`. -/
def leftPadZeros (s : String) (n : ℕ) : String :=
  String.mk (List.replicate (n - s.length) '0') ++ s

/-- Python fixed-point formatting `{q:.precf}` as used by the `{lat:.6f}`,
`{temperature:.1f}` and `{speed:.1f}` substitutions of `generate_links`:
`prec` fractional digits, zero-padded.  Ties are rounded half-up here; the
decimal inputs in this repository never hit a tie at the used precisions. -/
def pyFixedStr (prec : ℕ) (q : ℚ) : String :=
  let sgn := if q < 0 then "-" else ""
  let scaled := (⌊|q| * (10 : ℚ) ^ prec + 1 / 2⌋).toNat
  sgn ++ toString (scaled / 10 ^ prec) ++ "." ++
    leftPadZeros (toString (scaled % 10 ^ prec)) prec

/-- UTF-8 encoding of a character, as byte values. -/
def utf8Bytes (c : Char) : List ℕ :=
  let n := c.toNat
  if n < 128 then [n]
  else if n < 2048 then [192 + n / 64, 128 + n % 64]
  else if n < 65536 then [224 + n / 4096, 128 + n / 64 % 64, 128 + n % 64]
  else [240 + n / 262144, 128 + n / 4096 % 64, 128 + n / 64 % 64,
    128 + n % 64]

/-- Uppercase hexadecimal digit for a value below 16. -/
def hexDigit (n : ℕ) : Char :=
  if n < 10 then Char.ofNat (48 + n) else Char.ofNat (55 + n)

/-- Python `urllib.parse.quote` with its default `safe` value: ASCII
letters, digits, `_`, `.`, `-`, `~` and `/` are kept, every other UTF-8
byte is percent-encoded with uppercase hexadecimal. -/
def urlquote (s : String) : String :=
  String.join (s.data.map fun c =>
    String.join ((utf8Bytes c).map fun b =>
      if (65 ≤ b ∧ b ≤ 90) ∨ (97 ≤ b ∧ b ≤ 122) ∨ (48 ≤ b ∧ b ≤ 57) ∨
          b = 95 ∨ b = 46 ∨ b = 45 ∨ b = 126 ∨ b = 47 then
        String.mk [Char.ofNat b]
      else
        String.mk ['%', hexDigit (b / 16), hexDigit (b % 16)]))

/-- `ShareableLinksGenerator.generate_links` (`src/shareable_links.py`,
lines 22-63), as the ordered key/URL association list the Python dict
literal builds.  The f-string float substitutions `{lat}` are modelled by
`pyFloatStr`, `{lat:.6f}` and `{temperature:.1f}` by `pyFixedStr`, and
`urllib.parse.quote` by `urlquote`; everything else is literal string
concatenation.  No network call appears anywhere in the computation. -/
def generate_links (location : Location) : List (String × String) :=
  let lat := location.lat
  let lon := location.lon
  let city_name := location.name
  let country := location.country
  let weather := location.weather.getD "Unknown"
  let temperature := location.temperature.getD 0
  let traffic := location.traffic.getD "Unknown"
  let speed := location.speed.getD 0
  let location_desc := city_name ++ ", " ++ country
  let latS := pyFloatStr lat
  let lonS := pyFloatStr lon
  let lat6 := pyFixedStr 6 lat
  let lon6 := pyFixedStr 6 lon
  let gmaps := "https://maps.google.com/?q=" ++ latS ++ "," ++ lonS
  [("google_maps", "https://www.google.com/maps?q=" ++ latS ++ "," ++ lonS),
   ("apple_maps", "https://maps.apple.com/?q=" ++ latS ++ "," ++ lonS),
   ("waze",
     "https://waze.com/ul?ll=" ++ latS ++ "," ++ lonS ++ "&navigate=yes"),
   ("bing_maps",
     "https://www.bing.com/maps?cp=" ++ latS ++ "~" ++ lonS ++ "&lvl=15"),
   ("openstreetmap",
     "https://www.openstreetmap.org/?mlat=" ++ latS ++ "&mlon=" ++ lonS ++
       "&zoom=15"),
   ("whatsapp",
     "https://wa.me/?text=📍 I\x27m at " ++ location_desc ++ " (" ++ lat6 ++
       ", " ++ lon6 ++ ")"),
   ("telegram",
     "https://t.me/share/url?url=" ++ urlquote gmaps ++
       "&text=📍 I\x27m at " ++ location_desc),
   ("twitter",
     "https://twitter.com/intent/tweet?text=📍 I\x27m at " ++
       location_desc ++ " (" ++ lat6 ++ ", " ++ lon6 ++ ")&url=" ++
       urlquote gmaps),
   ("facebook",
     "https://www.facebook.com/sharer/sharer.php?u=" ++ urlquote gmaps),
   ("linkedin",
     "https://www.linkedin.com/sharing/share-offsite/?url=" ++
       urlquote gmaps),
   ("email",
     "mailto:?subject=📍 My Location&body=📍 I\x27m at " ++ location_desc ++
       " (" ++ lat6 ++ ", " ++ lon6 ++
       ")%0A%0AView on Google Maps: " ++ gmaps),
   ("sms",
     "sms:?body=📍 I\x27m at " ++ location_desc ++ " (" ++ lat6 ++ ", " ++
       lon6 ++ ")"),
   ("deep_link",
     "geo:" ++ latS ++ "," ++ lonS ++ "?q=" ++ urlquote location_desc),
   ("qr_code_data", gmaps),
   ("custom_share",
     "📍 I\x27m at " ++ location_desc ++ " (" ++ lat6 ++ ", " ++ lon6 ++
       ")%0A%0A🌤️ Weather: " ++ weather ++ " | 🌡️ " ++
       pyFixedStr 1 temperature ++ "°C%0A🚦 Traffic: " ++ traffic ++
       " | 🚗 " ++ pyFixedStr 1 speed ++
       " km/h%0A%0A🗺️ View on Google Maps: " ++ gmaps),
   ("short_text",
     "📍 " ++ location_desc ++ " (" ++ lat6 ++ ", " ++ lon6 ++ ")"),
   ("detailed_text",
     "📍 Location: " ++ location_desc ++ "%0A🌤️ Weather: " ++ weather ++
       " | 🌡️ " ++ pyFixedStr 1 temperature ++ "°C%0A🚦 Traffic: " ++
       traffic ++ " | 🚗 " ++ pyFixedStr 1 speed ++ " km/h%0A🗺️ Maps: " ++
       gmaps)]

/-- The concrete location of the specification's share-link property:
latitude 40.7128, longitude -74.0060. -/
def newYorkSample : Location :=
  { name := "New York", lat := 40.7128, lon := -74.0060, country := "USA" }

end ShareLinks

/-- Mapping a function over a list with one element replaced is the map of the
list with the image of the replacement written at the same position. -/
theorem list_map_set {α β : Type} (f : α → β) :
    ∀ (l : List α) (i : ℕ) (v : α), (l.set i v).map f = (l.map f).set i (f v)
  | [], _, _ => rfl
  | _ :: _, 0, _ => rfl
  | a :: t, i + 1, v => by
    simp only [List.set, List.map, List.cons.injEq, true_and]
    exact list_map_set f t i v

/-- Writing back the element already stored at a position leaves the list
unchanged. -/
theorem list_set_self {α : Type} :
    ∀ (l : List α) (i : ℕ) (hi : i < l.length), l.set i (l.get ⟨i, hi⟩) = l
  | _ :: _, 0, _ => rfl
  | a :: t, i + 1, hi => by
    simp only [List.set, List.cons.injEq, true_and]
    exact list_set_self t i (Nat.lt_of_succ_lt_succ hi)

/-- Replacing one entry of a rational list by a larger value does not decrease
the sum. -/
theorem list_sum_set_le :
    ∀ (l : List ℚ) (i : ℕ) (hi : i < l.length) (v : ℚ),
      l.get ⟨i, hi⟩ ≤ v → l.sum ≤ (l.set i v).sum
  | a :: t, 0, _, v, h => by
    simp only [List.set, List.sum_cons]
    exact add_le_add_right h _
  | a :: t, i + 1, hi, v, h => by
    simp only [List.set, List.sum_cons]
    exact add_le_add_left (list_sum_set_le t i (Nat.lt_of_succ_lt_succ hi) v h) a

/-- Lower bound: every severity band of `classify_severity` ranks at least 1. -/
theorem classify_rank_ge_one (t q : ℚ) :
    1 ≤ AntiGps.severityRank (AntiGps.classify_severity t q) := by
  unfold AntiGps.classify_severity
  split_ifs <;> decide

/-- Lower bound: total strength above 1.0 forces at least the medium band. -/
theorem classify_rank_ge_two (t q : ℚ) (ht : t > 1.0) :
    2 ≤ AntiGps.severityRank (AntiGps.classify_severity t q) := by
  unfold AntiGps.classify_severity
  split_ifs with h1 h2 h3 <;> first | decide | exact absurd ht h3

/-- Lower bound: the high-band thresholds force at least the high band. -/
theorem classify_rank_ge_three (t q : ℚ) (ht : t > 1.5) (hq : q > 0.7) :
    3 ≤ AntiGps.severityRank (AntiGps.classify_severity t q) := by
  unfold AntiGps.classify_severity
  split_ifs with h1 h2 <;> first | decide | exact absurd ⟨ht, hq⟩ h2

/-- Lower bound: the critical-band thresholds force the critical band. -/
theorem classify_rank_ge_four (t q : ℚ) (ht : t > 2.0) (hq : q > 0.8) :
    4 ≤ AntiGps.severityRank (AntiGps.classify_severity t q) := by
  unfold AntiGps.classify_severity
  split_ifs with h1 <;> first | decide | exact absurd ⟨ht, hq⟩ h1

/-- Upper bound: no severity band of `classify_severity` ranks above 4. -/
theorem classify_rank_le_four (t q : ℚ) :
    AntiGps.severityRank (AntiGps.classify_severity t q) ≤ 4 := by
  unfold AntiGps.classify_severity
  split_ifs <;> decide

/-- Upper bound: failing the critical thresholds caps the rank at 3. -/
theorem classify_rank_le_three (t q : ℚ) (hc : ¬(t > 2.0 ∧ q > 0.8)) :
    AntiGps.severityRank (AntiGps.classify_severity t q) ≤ 3 := by
  unfold AntiGps.classify_severity
  split_ifs with h1 <;> first | decide | exact absurd h1 hc

/-- Upper bound: failing the critical and high thresholds caps the rank
at 2. -/
theorem classify_rank_le_two (t q : ℚ) (hc : ¬(t > 2.0 ∧ q > 0.8))
    (hh : ¬(t > 1.5 ∧ q > 0.7)) :
    AntiGps.severityRank (AntiGps.classify_severity t q) ≤ 2 := by
  unfold AntiGps.classify_severity
  split_ifs with h1 h2 <;>
    first | decide | exact absurd h1 hc | exact absurd h2 hh

/-- Upper bound: failing every strict threshold caps the rank at 1. -/
theorem classify_rank_le_one (t q : ℚ) (hc : ¬(t > 2.0 ∧ q > 0.8))
    (hh : ¬(t > 1.5 ∧ q > 0.7)) (hm : ¬(t > 1.0)) :
    AntiGps.severityRank (AntiGps.classify_severity t q) ≤ 1 := by
  unfold AntiGps.classify_severity
  split_ifs with h1 h2 h3 <;>
    first
      | decide
      | exact absurd h1 hc
      | exact absurd h2 hh
      | exact absurd h3 hm

/-- With the average quality held fixed, the severity band of
`classify_severity` is monotone in the total strength. -/
theorem classify_severity_mono (q t t' : ℚ) (h : t ≤ t') :
    AntiGps.severityRank (AntiGps.classify_severity t q) ≤
      AntiGps.severityRank (AntiGps.classify_severity t' q) := by
  by_cases hc : t > 2.0 ∧ q > 0.8
  · exact le_trans (classify_rank_le_four t q)
      (classify_rank_ge_four t' q (lt_of_lt_of_le hc.1 h) hc.2)
  · by_cases hh : t > 1.5 ∧ q > 0.7
    · exact le_trans (classify_rank_le_three t q hc)
        (classify_rank_ge_three t' q (lt_of_lt_of_le hh.1 h) hh.2)
    · by_cases hm : t > 1.0
      · exact le_trans (classify_rank_le_two t q hc hh)
          (classify_rank_ge_two t' q (lt_of_lt_of_le hm h))
      · exact le_trans (classify_rank_le_one t q hc hh hm)
          (classify_rank_ge_one t' q)

/-- C1: for every list of signal samples, `analyze_threat_level` agrees with
the reference classifier: `"none"` on the empty list, otherwise the
(total_strength, avg_quality) threshold bands checked in priority order
critical, high, medium, low. -/
theorem analyze_threat_level_eq_spec (signals : List AntiGps.Signal) :
    AntiGps.analyze_threat_level signals = AntiGps.classifySpec signals := by
  cases signals with
  | nil => rfl
  | cons s rest => rfl

/-- C3: for every non-empty signal list (non-emptiness is witnessed by the
valid index `i`), raising the strength of the sample at index `i` while
keeping its quality and every other sample fixed never decreases the severity
computed by `analyze_threat_level`, under the rank
none < low < medium < high < critical. -/
theorem analyze_threat_level_strength_mono (signals : List AntiGps.Signal)
    (i : ℕ) (hi : i < signals.length) (s' : ℚ)
    (hinc : (signals.get ⟨i, hi⟩).strength ≤ s') :
    AntiGps.severityRank (AntiGps.analyze_threat_level signals) ≤
      AntiGps.severityRank (AntiGps.analyze_threat_level
        (signals.set i { signals.get ⟨i, hi⟩ with strength := s' })) := by
  have hne : signals ≠ [] := by
    intro hnil
    rw [hnil] at hi
    exact absurd hi (by simp)
  have hlen : (signals.set i { signals.get ⟨i, hi⟩ with strength := s' }).length
      = signals.length := List.length_set signals i _
  have hne' : signals.set i { signals.get ⟨i, hi⟩ with strength := s' } ≠ [] := by
    intro hnil
    apply hne
    have := congrArg List.length hnil
    rw [hlen] at this
    exact List.eq_nil_of_length_eq_zero this
  unfold AntiGps.analyze_threat_level
  rw [if_neg hne, if_neg hne']
  have hq : (signals.set i { signals.get ⟨i, hi⟩ with strength := s' }).map
        AntiGps.Signal.quality = signals.map AntiGps.Signal.quality := by
    rw [list_map_set]
    have : AntiGps.Signal.quality { signals.get ⟨i, hi⟩ with strength := s' }
        = (signals.map AntiGps.Signal.quality).get
            ⟨i, by rw [List.length_map]; exact hi⟩ := by
      rw [List.get_map]
    rw [this, list_set_self]
  have hs : (signals.map AntiGps.Signal.strength).sum ≤
      ((signals.set i { signals.get ⟨i, hi⟩ with strength := s' }).map
        AntiGps.Signal.strength).sum := by
    rw [list_map_set]
    apply list_sum_set_le (signals.map AntiGps.Signal.strength) i
      (by rw [List.length_map]; exact hi)
    rw [List.get_map]
    exact hinc
  rw [hq, hlen]
  exact classify_severity_mono _ _ _ hs

/-- Witness for C3 at a concrete input: one detected signal of strength 0.5
and quality 0.9, strength raised to 3. -/
theorem analyze_threat_level_strength_mono_witness :
    (([AntiGps.sampleSignal 0.5 0.9].get ⟨0, Nat.zero_lt_one⟩).strength ≤ 3) ∧
    AntiGps.severityRank (AntiGps.analyze_threat_level [AntiGps.sampleSignal 0.5 0.9]) ≤
      AntiGps.severityRank (AntiGps.analyze_threat_level
        ([AntiGps.sampleSignal 0.5 0.9].set 0
          { [AntiGps.sampleSignal 0.5 0.9].get ⟨0, by decide⟩ with strength := 3 })) :=
  ⟨by norm_num [AntiGps.sampleSignal],
    analyze_threat_level_strength_mono [AntiGps.sampleSignal 0.5 0.9] 0
      (by decide) 3 (by norm_num [AntiGps.sampleSignal])⟩

/-- Length of the buffer after one tick: it grows by one until the capacity
of 100 is reached and stays at 100 afterwards. -/
theorem tracking_append_length {α : Type} (h : List α) (x : α) :
    (LiveLocations.tracking_append h x).length = min (h.length + 1) 100 := by
  show (if (h ++ [x]).length > 100 then
      (h ++ [x]).drop ((h ++ [x]).length - 100) else h ++ [x]).length
    = min (h.length + 1) 100
  split_ifs with hgt <;>
    simp only [List.length_drop, List.length_append, List.length_cons,
      List.length_nil] at hgt ⊢ <;> omega

/-- One tick always leaves the buffer equal to the appended list with its
overflow dropped from the front. -/
theorem tracking_append_eq_drop {α : Type} (h : List α) (x : α) :
    LiveLocations.tracking_append h x
      = (h ++ [x]).drop ((h ++ [x]).length - 100) := by
  show (if (h ++ [x]).length > 100 then
      (h ++ [x]).drop ((h ++ [x]).length - 100) else h ++ [x])
    = (h ++ [x]).drop ((h ++ [x]).length - 100)
  split_ifs with hgt
  · rfl
  · rw [Nat.sub_eq_zero_of_le (by omega), List.drop_zero]

/-- Running the tracking loop from a buffer within capacity leaves exactly
the suffix of the appended stream that fits in the capacity of 100. -/
theorem tracking_run_eq_drop {α : Type} :
    ∀ (locs : List α) (h : List α), h.length ≤ 100 →
      LiveLocations.tracking_run h locs
        = (h ++ locs).drop ((h ++ locs).length - 100)
  | [], h, hle => by
    simp only [LiveLocations.tracking_run, List.foldl_nil, List.append_nil]
    rw [Nat.sub_eq_zero_of_le hle, List.drop_zero]
  | x :: xs, h, hle => by
    have hstep : LiveLocations.tracking_run h (x :: xs)
        = LiveLocations.tracking_run (LiveLocations.tracking_append h x) xs := rfl
    have hlen2 : (LiveLocations.tracking_append h x).length ≤ 100 := by
      rw [tracking_append_length]
      omega
    have ih := tracking_run_eq_drop xs (LiveLocations.tracking_append h x) hlen2
    rw [hstep, ih, tracking_append_eq_drop h x,
      ← List.drop_append_of_le_length (Nat.sub_le _ _), List.drop_drop]
    have hl : (h ++ [x]) ++ xs = h ++ x :: xs := by simp
    rw [hl]
    congr 1
    simp only [List.length_drop, List.length_append, List.length_cons,
      List.length_nil]
    omega

/-- C2: starting within capacity, the history buffer never exceeds 100
records no matter how many appends occur, and appending any sequence of 150
records to the empty buffer leaves exactly the last 100 of them in their
original relative order (the oldest 50 dropped FIFO). -/
theorem location_history_bounded_fifo {α : Type} (init locs : List α)
    (hinit : init.length ≤ 100) :
    (LiveLocations.tracking_run init locs).length ≤ 100 ∧
    (locs.length = 150 →
      LiveLocations.tracking_run [] locs = locs.drop 50) := by
  constructor
  · rw [tracking_run_eq_drop locs init hinit, List.length_drop]
    omega
  · intro h150
    rw [tracking_run_eq_drop locs [] (by simp)]
    simp only [List.nil_append]
    rw [h150]

/-- Witness for C2 at a concrete input: 150 appended records starting from
the empty buffer. -/
theorem location_history_bounded_fifo_witness :
    (LiveLocations.tracking_run ([] : List ℕ)
        (List.replicate 150 0)).length ≤ 100 ∧
    LiveLocations.tracking_run ([] : List ℕ) (List.replicate 150 0)
      = (List.replicate 150 0).drop 50 :=
  ⟨(location_history_bounded_fifo [] (List.replicate 150 0) (by decide)).1,
   (location_history_bounded_fifo [] (List.replicate 150 0) (by decide)).2
     (by decide)⟩

/-- The accumulation loop of `get_distance_traveled` equals the sum of the
pairwise distances over consecutive entries. -/
theorem distance_loop_eq_zip_sum :
    ∀ h : List LiveLocations.LocationSample,
      LiveLocations.distance_loop h = LiveLocations.total_distance_spec h
  | [] => by simp [LiveLocations.distance_loop, LiveLocations.total_distance_spec]
  | [a] => by simp [LiveLocations.distance_loop, LiveLocations.total_distance_spec]
  | a :: b :: t => by
    have ih := distance_loop_eq_zip_sum (b :: t)
    simp only [LiveLocations.distance_loop, LiveLocations.total_distance_spec,
      List.tail_cons, List.zip_cons_cons, List.map_cons, List.sum_cons] at ih ⊢
    rw [ih]

/-- C4: `get_distance_traveled` returns 0 whenever the history buffer holds
fewer than 2 samples, and otherwise equals the sum, over consecutive stored
samples in chronological order, of the haversine great-circle distance
(`calculate_distance`, Earth radius 6371 km) between their (lat, lon)
coordinates. -/
theorem get_distance_traveled_eq_spec
    (history : List LiveLocations.LocationSample) :
    (history.length < 2 → LiveLocations.get_distance_traveled history = 0) ∧
    LiveLocations.get_distance_traveled history
      = LiveLocations.total_distance_spec history := by
  constructor
  · intro h
    simp [LiveLocations.get_distance_traveled, h]
  · unfold LiveLocations.get_distance_traveled
    split_ifs with h
    · rcases history with _ | ⟨a, _ | ⟨b, t⟩⟩
      · simp [LiveLocations.total_distance_spec]
      · simp [LiveLocations.total_distance_spec]
      · simp only [List.length_cons] at h
        omega
    · exact distance_loop_eq_zip_sum history

/-- Witness for C4 at a concrete input: the empty history, which has fewer
than 2 samples and total distance 0. -/
theorem get_distance_traveled_eq_spec_witness :
    ([] : List LiveLocations.LocationSample).length < 2 ∧
    LiveLocations.get_distance_traveled [] = 0 :=
  ⟨by decide, (get_distance_traveled_eq_spec []).1 (by decide)⟩

/-- C6 counterexample: one `detect_gps_signals` call on the freshly
initialised system, with a scan whose first draw has strength 0.5 > 0.3,
changes the system state (it appends to `gps_signals_detected`), contrary to
the claim that every field is left unchanged. -/
theorem detect_gps_signals_mutates_state :
    (AntiGps.detect_gps_signals AntiGps.initSystem
        [(0.5, 0.9), (0.2, 0.6), (0.8, 0.7)] "t1").2 ≠ AntiGps.initSystem := by
  intro h
  have hlen := congrArg (fun s => s.gps_signals_detected.length) h
  norm_num [AntiGps.detect_gps_signals, AntiGps.detected_signals,
    AntiGps.gps_frequencies, AntiGps.initSystem, List.filterMap_cons] at hlen

/-- C6 amended: `detect_gps_signals` returns its list of detected signals
and leaves every field of the system unchanged except
`gps_signals_detected`, which is extended by exactly the returned signals. -/
theorem detect_gps_signals_frame (sys : AntiGps.AntiGPSSystem)
    (draws : List (ℚ × ℚ)) (ts : String) :
    (AntiGps.detect_gps_signals sys draws ts).2.is_active = sys.is_active ∧
    (AntiGps.detect_gps_signals sys draws ts).2.detection_mode
      = sys.detection_mode ∧
    (AntiGps.detect_gps_signals sys draws ts).2.protection_level
      = sys.protection_level ∧
    (AntiGps.detect_gps_signals sys draws ts).2.jamming_active
      = sys.jamming_active ∧
    (AntiGps.detect_gps_signals sys draws ts).2.gps_signals_detected
      = sys.gps_signals_detected ++ (AntiGps.detect_gps_signals sys draws ts).1 :=
  ⟨rfl, rfl, rfl, rfl, rfl⟩

/-- Running a sequence of detections appends exactly the per-scan detected
signals, in order, to `gps_signals_detected`. -/
theorem run_detections_gps :
    ∀ (ticks : List (List (ℚ × ℚ) × String)) (sys : AntiGps.AntiGPSSystem),
      (AntiGps.run_detections sys ticks).gps_signals_detected
        = sys.gps_signals_detected
          ++ (ticks.map fun t => AntiGps.detected_signals t.1 t.2).join
  | [], sys => by
    simp [AntiGps.run_detections]
  | t :: ts, sys => by
    have ih := run_detections_gps ts (AntiGps.detect_gps_signals sys t.1 t.2).2
    simp only [AntiGps.run_detections, List.foldl_cons] at ih ⊢
    rw [ih]
    simp [AntiGps.detect_gps_signals, List.append_assoc]

/-- C10: `gps_signals_detected` is append-only and unbounded: any sequence
of `detect_gps_signals` calls extends it by exactly the concatenation of the
per-scan detections, nothing is ever removed, and the `threat_level` reported
by `get_status` is computed over the whole cumulative list, not over the most
recent scan. -/
theorem gps_signals_detected_cumulative (sys : AntiGps.AntiGPSSystem)
    (ticks : List (List (ℚ × ℚ) × String)) :
    (AntiGps.run_detections sys ticks).gps_signals_detected
      = sys.gps_signals_detected
        ++ (ticks.map fun t => AntiGps.detected_signals t.1 t.2).join ∧
    (AntiGps.get_status (AntiGps.run_detections sys ticks)).threat_level
      = AntiGps.analyze_threat_level
          (sys.gps_signals_detected
            ++ (ticks.map fun t => AntiGps.detected_signals t.1 t.2).join) := by
  refine ⟨run_detections_gps ticks sys, ?_⟩
  simp only [AntiGps.get_status]
  rw [run_detections_gps ticks sys]

/-- C7 counterexample: on the empty signal list `signal_jamming` returns the
bare boolean `False`, not a list of countermeasure records. -/
theorem signal_jamming_empty_returns_bool :
    (AntiGps.signal_jamming AntiGps.initSystem [] (fun _ => 0.8) "t1").1
      = AntiGps.JammingReturn.asBool false ∧
    ((AntiGps.signal_jamming AntiGps.initSystem [] (fun _ => 0.8)
        "t1").1).isRecordList = false :=
  ⟨rfl, rfl⟩

/-- C7 amended: `signal_jamming` always completes; on every non-empty signal
list it returns a list of jamming records, one record per input signal, and
on the empty list it returns the boolean `False` instead of a list. -/
theorem signal_jamming_shape (sys : AntiGps.AntiGPSSystem)
    (signals : List AntiGps.Signal) (powers : ℕ → ℚ) (ts : String) :
    (signals ≠ [] →
      ∃ rs : List AntiGps.JammingResult,
        (AntiGps.signal_jamming sys signals powers ts).1
          = AntiGps.JammingReturn.records rs ∧
        rs.length = signals.length) ∧
    (AntiGps.signal_jamming sys [] powers ts).1
      = AntiGps.JammingReturn.asBool false := by
  constructor
  · intro h
    unfold AntiGps.signal_jamming
    rw [if_neg h]
    exact ⟨_, rfl, by simp⟩
  · rfl

/-- Witness for C7's amended theorem at a concrete input: a single signal. -/
theorem signal_jamming_shape_witness :
    ∃ rs : List AntiGps.JammingResult,
      (AntiGps.signal_jamming AntiGps.initSystem [AntiGps.sampleSignal 0.5 0.9]
          (fun _ => 0.8) "t1").1 = AntiGps.JammingReturn.records rs ∧
      rs.length = [AntiGps.sampleSignal 0.5 0.9].length :=
  (signal_jamming_shape AntiGps.initSystem [AntiGps.sampleSignal 0.5 0.9]
    (fun _ => 0.8) "t1").1 (by simp)

/-- C8: a recognized protection tier (a key of `protection_methods`, i.e.
low, medium, high or maximum) is stored by `set_protection_level`, and a
recognized detection mode (passive, active or aggressive) by
`set_detection_mode`, each with a confirmation message; every other string
leaves the prior configuration unchanged and reports the user-visible
invalid-input message. -/
theorem config_setters_validate (sys : AntiGps.AntiGPSSystem) (v : String) :
    ((AntiGps.protection_methods.lookup v).isSome
      = (["low", "medium", "high", "maximum"].contains v)) ∧
    ((AntiGps.protection_methods.lookup v).isSome = true →
      AntiGps.set_protection_level sys v
        = ({ sys with protection_level := v },
            "🛡️ Protection level set to: " ++ v.toUpper)) ∧
    ((AntiGps.protection_methods.lookup v).isSome = false →
      AntiGps.set_protection_level sys v
        = (sys, "❌ Invalid protection level. Use: low, medium, high, maximum")) ∧
    (AntiGps.valid_modes.contains v = true →
      AntiGps.set_detection_mode sys v
        = ({ sys with detection_mode := v },
            "🔍 Detection mode set to: " ++ v.toUpper)) ∧
    (AntiGps.valid_modes.contains v = false →
      AntiGps.set_detection_mode sys v
        = (sys, "❌ Invalid detection mode. Use: passive, active, aggressive")) := by
  refine ⟨?_, ?_, ?_, ?_, ?_⟩
  · cases hb1 : v == "low" <;> cases hb2 : v == "medium" <;>
      cases hb3 : v == "high" <;> cases hb4 : v == "maximum" <;>
      simp only [beq_iff_eq, beq_eq_false_iff_ne] at hb1 hb2 hb3 hb4 <;>
      simp [AntiGps.protection_methods, List.lookup, List.elem, beq_iff_eq,
        beq_false_of_ne, hb1, hb2, hb3, hb4]
  · intro h
    simp [AntiGps.set_protection_level, h]
  · intro h
    simp [AntiGps.set_protection_level, h]
  · intro h
    unfold AntiGps.set_detection_mode
    rw [if_pos h]
  · intro h
    unfold AntiGps.set_detection_mode
    rw [if_neg (by simpa using h)]

/-- Witness for C8 at concrete inputs: "high" is a valid protection tier and
an invalid detection mode. -/
theorem config_setters_validate_witness :
    AntiGps.set_protection_level AntiGps.initSystem "high"
      = ({ AntiGps.initSystem with protection_level := "high" },
          "🛡️ Protection level set to: " ++ "high".toUpper) ∧
    AntiGps.set_detection_mode AntiGps.initSystem "high"
      = (AntiGps.initSystem,
          "❌ Invalid detection mode. Use: passive, active, aggressive") :=
  ⟨(config_setters_validate AntiGps.initSystem "high").2.1 (by decide),
   (config_setters_validate AntiGps.initSystem "high").2.2.2.2 (by decide)⟩

/-- Three strong clean signals classify as critical. -/
theorem three_strong_signals_critical :
    AntiGps.analyze_threat_level
      [AntiGps.sampleSignal 0.9 0.9, AntiGps.sampleSignal 0.9 0.9,
        AntiGps.sampleSignal 0.9 0.9] = "critical" := by
  unfold AntiGps.analyze_threat_level
  rw [if_neg (by simp)]
  norm_num [AntiGps.classify_severity, AntiGps.sampleSignal]

/-- C5 counterexample: with the protection tier configured to `low`, a
monitoring tick on three strong signals (severity critical) still applies
both `signal_jamming` and `encryption`, so the claim that tier `low` never
yields a jamming or encryption action is false. -/
theorem low_tier_tick_still_jams_and_encrypts :
    "signal_jamming" ∈ AntiGps.monitoring_tick_actions
        { AntiGps.initSystem with protection_level := "low" }
        [AntiGps.sampleSignal 0.9 0.9, AntiGps.sampleSignal 0.9 0.9,
          AntiGps.sampleSignal 0.9 0.9] ∧
    "encryption" ∈ AntiGps.monitoring_tick_actions
        { AntiGps.initSystem with protection_level := "low" }
        [AntiGps.sampleSignal 0.9 0.9, AntiGps.sampleSignal 0.9 0.9,
          AntiGps.sampleSignal 0.9 0.9] := by
  unfold AntiGps.monitoring_tick_actions
  rw [if_neg (by simp), three_strong_signals_critical]
  constructor <;> simp

/-- C5 amended: the countermeasure actions a monitoring tick applies depend
only on the severity computed from the tick's detected signals and never on
the configured protection tier: high or critical severity yields the full
list (spoofing, jamming, hopping, encryption), medium the reduced list
(spoofing, jamming), any other severity none.  In particular tier `low` does
not suppress jamming or encryption. -/
theorem monitoring_actions_ignore_tier (sys sys2 : AntiGps.AntiGPSSystem)
    (signals : List AntiGps.Signal) :
    AntiGps.monitoring_tick_actions sys signals
      = AntiGps.monitoring_tick_actions sys2 signals ∧
    (AntiGps.analyze_threat_level signals = "high" ∨
        AntiGps.analyze_threat_level signals = "critical" →
      AntiGps.monitoring_tick_actions sys signals
        = ["location_spoofing", "signal_jamming", "frequency_hopping",
            "encryption"]) ∧
    (AntiGps.analyze_threat_level signals = "medium" →
      AntiGps.monitoring_tick_actions sys signals
        = ["location_spoofing", "signal_jamming"]) ∧
    (AntiGps.analyze_threat_level signals = "low" ∨ signals = [] →
      AntiGps.monitoring_tick_actions sys signals = []) := by
  refine ⟨rfl, ?_, ?_, ?_⟩
  · intro h
    have hne : signals ≠ [] := by
      intro hnil
      rw [hnil] at h
      simp [AntiGps.analyze_threat_level] at h
    unfold AntiGps.monitoring_tick_actions
    rw [if_neg hne, if_pos h]
  · intro h
    have hne : signals ≠ [] := by
      intro hnil
      rw [hnil] at h
      simp [AntiGps.analyze_threat_level] at h
    unfold AntiGps.monitoring_tick_actions
    rw [if_neg hne, if_neg (by rw [h]; decide), if_pos h]
  · intro h
    rcases h with h | h
    · have hne : signals ≠ [] := by
        intro hnil
        rw [hnil] at h
        simp [AntiGps.analyze_threat_level] at h
      unfold AntiGps.monitoring_tick_actions
      rw [if_neg hne, if_neg (by rw [h]; decide),
        if_neg (by rw [h]; decide)]
    · unfold AntiGps.monitoring_tick_actions
      rw [if_pos h]

/-- Witness for C5's amended theorem at a concrete input: with tier `low`
and three strong signals (severity critical) the tick applies the full
action list. -/
theorem monitoring_actions_ignore_tier_witness :
    AntiGps.monitoring_tick_actions
        { AntiGps.initSystem with protection_level := "low" }
        [AntiGps.sampleSignal 0.9 0.9, AntiGps.sampleSignal 0.9 0.9,
          AntiGps.sampleSignal 0.9 0.9]
      = ["location_spoofing", "signal_jamming", "frequency_hopping",
          "encryption"] :=
  (monitoring_actions_ignore_tier
      { AntiGps.initSystem with protection_level := "low" }
      { AntiGps.initSystem with protection_level := "maximum" }
      [AntiGps.sampleSignal 0.9 0.9, AntiGps.sampleSignal 0.9 0.9,
        AntiGps.sampleSignal 0.9 0.9]).2.1
    (Or.inr three_strong_signals_critical)

/-- C9: share-link generation is a deterministic pure function of the input
location, and for the location with lat 40.7128 and lon -74.0060 the Google
Maps URL it produces contains the exact substring `q=40.7128,-74.006`
(shown by splitting the produced URL around that substring; Python renders
the float literal -74.0060 as -74.006). -/
theorem generate_links_deterministic_google_maps
    (l1 l2 : ShareLinks.Location) :
    ((ShareLinks.generate_links ShareLinks.newYorkSample).lookup
        "google_maps")
      = some ("https://www.google.com/maps?" ++ "q=40.7128,-74.006" ++ "") ∧
    (l1 = l2 →
      ShareLinks.generate_links l1 = ShareLinks.generate_links l2) := by
  constructor
  · with_unfolding_all rfl
  · intro h
    rw [h]

/-- Witness for C9 at a concrete input: both calls on the same New York
location produce the same link set. -/
theorem generate_links_deterministic_google_maps_witness :
    ((ShareLinks.generate_links ShareLinks.newYorkSample).lookup
        "google_maps")
      = some ("https://www.google.com/maps?" ++ "q=40.7128,-74.006" ++ "") ∧
    ShareLinks.generate_links ShareLinks.newYorkSample
      = ShareLinks.generate_links ShareLinks.newYorkSample :=
  ⟨(generate_links_deterministic_google_maps ShareLinks.newYorkSample
      ShareLinks.newYorkSample).1,
   (generate_links_deterministic_google_maps ShareLinks.newYorkSample
      ShareLinks.newYorkSample).2 rfl⟩
